import Mathlib

/-!
Shallow embedding of the TAP14 tree-builder core of the tap-consooomer
repository (src/src/lib.rs, with the CLI variant src/src/main.rs where it
differs).  The pest grammar file tap14.pest is not part of src/, so the
builders are embedded over the already-tokenized child sequences that the
grammar hands to them; grammar-level behaviour that a claim needs (the
yaml_block indentation stripping) is modelled from the spec and marked as
such in its doc comment.

Rust i32 values are modelled as Int with the explicit i32 range check of
str::parse::<i32>; fallible Rust functions returning anyhow::Result are
embedded as Except TapError; Rust panics (unwrap on None, unreachable!,
panic!) are modelled by the Outcome.panicked constructor, so that an
unconditional process abort is distinguishable from a typed error.
-/

namespace Tap

/-- Outcome of a computation that can either produce a value or abort the
process (Rust panic via unwrap / unreachable! / panic!). -/
inductive Outcome (α : Type) where
  | ok (value : α)
  | panicked (msg : String)
  deriving DecidableEq

/-- Typed (recoverable) errors of the core, mirroring the anyhow! error
sites in lib.rs.  The payload is the datum interpolated into the message. -/
inductive TapError where
  /-- lib.rs:243 "Directive key ... must be 'skip' or 'todo'" carrying the
  lower-cased key token. -/
  | directiveKey (key : String)
  /-- lib.rs:291 "Result ... must be 'ok' or 'not ok'" carrying the raw
  result token. -/
  | resultToken (token : String)
  /-- A std::num::ParseIntError propagated by the ? operator in Plan::parse
  (lib.rs:194-195), carrying the offending token. -/
  | intParse (token : String)
  deriving DecidableEq

/-- Rust char::to_lowercase restricted to ASCII, which is all the TAP
keyword tokens can contain. -/
def charToLower (c : Char) : Char :=
  if 'A' ≤ c ∧ c ≤ 'Z' then Char.ofNat (c.toNat + 32) else c

/-- Rust str::to_lowercase (ASCII range). -/
def toLowercase (s : String) : String :=
  String.mk (s.data.map charToLower)

/-- Digit run of an integer token (helper for parseI32). -/
def parseDigits (cs : List Char) : Option Nat :=
  match cs with
  | [] => none
  | _ =>
    if cs.all Char.isDigit then
      some (cs.foldl (fun acc c => acc * 10 + (c.toNat - '0'.toNat)) 0)
    else none

/-- Numeric value of a digit run (the very fold of parseDigits, named so
that overflow can be stated for every grammar-shaped number token). -/
def digitsVal (cs : List Char) : Nat :=
  cs.foldl (fun acc c => acc * 10 + (c.toNat - '0'.toNat)) 0

/-- Rust str::parse::<i32>: optional sign, one or more ASCII digits, value
within the i32 range; anything else is a parse error (here: none). -/
def parseI32 (s : String) : Option Int :=
  let (sign, digits) : Int × List Char :=
    match s.data with
    | '+' :: rest => (1, rest)
    | '-' :: rest => (-1, rest)
    | cs => (1, cs)
  match parseDigits digits with
  | none => none
  | some n =>
    let v : Int := sign * (n : Int)
    if -(2 ^ 31) ≤ v ∧ v ≤ 2 ^ 31 - 1 then some v else none

/-- Rust Result::ok(): convert an Except into an Option, discarding the
error. -/
def exceptOk {ε α : Type} : Except ε α → Option α
  | .ok a => some a
  | .error _ => none

/-- The TAP Preamble (lib.rs struct Preamble). -/
structure Preamble where
  version : String
  deriving DecidableEq

/-- The TAP Plan (lib.rs struct Plan); first/last are i32 in the source. -/
structure Plan where
  first : Int
  last : Int
  reason : Option String
  deriving DecidableEq

/-- Directive keys (lib.rs enum Key). -/
inductive Key where
  | skip
  | todo
  deriving DecidableEq

/-- A Directive (lib.rs struct Directive). -/
structure Directive where
  key : Key
  reason : Option String
  deriving DecidableEq

/-- A Pragma (lib.rs struct Pragma). -/
structure Pragma where
  flag : Option Bool
  option : String
  deriving DecidableEq

/-- A BailOut (lib.rs struct BailOut). -/
structure BailOut where
  reason : Option String
  deriving DecidableEq

/-- A Test (lib.rs struct Test); yaml is the list of captured YAML lines. -/
structure Test where
  result : Bool
  number : Option Int
  description : Option String
  directive : Option Directive
  yaml : List String
  deriving DecidableEq

mutual
/-- A Statement (lib.rs enum Statement): the five body shapes. -/
inductive Statement where
  | anything (text : String)
  | bailOut (b : BailOut)
  | pragmaStmt (p : Pragma)
  | subtest (s : Subtest)
  | test (t : Test)
/-- A Subtest (lib.rs struct Subtest): name, resolved plan, ordered body. -/
inductive Subtest where
  | mk (name : Option String) (plan : Plan) (body : List Statement)
end

/-- Field accessor for Subtest.name. -/
def Subtest.name : Subtest → Option String
  | .mk n _ _ => n

/-- Field accessor for Subtest.plan. -/
def Subtest.plan : Subtest → Plan
  | .mk _ p _ => p

/-- Field accessor for Subtest.body. -/
def Subtest.body : Subtest → List Statement
  | .mk _ _ b => b

/-- Embedding of Preamble::parse (lib.rs:153-157): the version token is
taken verbatim. -/
def Preamble.parse (version : String) : Preamble :=
  ⟨version⟩

/-- Embedding of Plan::parse (lib.rs:192-198): both bounds go through the
i32 parser, a failure is propagated by the ? operator as a typed error;
the reason token, when present, is taken verbatim. -/
def Plan.parse (first last : String) (reason : Option String) : Except TapError Plan :=
  match parseI32 first with
  | none => .error (.intParse first)
  | some f =>
    match parseI32 last with
    | none => .error (.intParse last)
    | some l => .ok ⟨f, l, reason⟩

/-- Embedding of Directive::parse (lib.rs:237-247): the key token is
lower-cased, compared against skip/todo, and an unrecognized key is a typed
error carrying the (lower-cased) token; the reason is taken verbatim. -/
def Directive.parse (key : String) (reason : Option String) : Except TapError Directive :=
  let k := toLowercase key
  if k = "skip" then .ok ⟨.skip, reason⟩
  else if k = "todo" then .ok ⟨.todo, reason⟩
  else .error (.directiveKey k)

/-- Embedding of BailOut::parse (lib.rs:383-387). -/
def BailOut.parse (reason : Option String) : BailOut :=
  ⟨reason⟩

/-- The child pairs a grammar-produced pragma node can hand to
Pragma::parse: an optional sign pair (grammar rule flag, string "+" or "-")
followed by the identifier pair (grammar rule option).  Carried strings are
the pair's as_str(). -/
inductive PragmaChild where
  | flag (s : String)
  | option (s : String)
  deriving DecidableEq

/-- The pair's as_str() regardless of its rule. -/
def PragmaChild.str : PragmaChild → String
  | .flag s => s
  | .option s => s

/-- Embedding of Pragma::parse (lib.rs:422-441): if the first pair is a
flag, "+" maps to some true, "-" to some false and anything else hits
unreachable!; the next pair (unwrap: panic when absent) supplies the
option.  Without a flag pair the first pair supplies the option and the
flag is none. -/
def Pragma.parse (pairs : List PragmaChild) : Outcome Pragma :=
  match pairs with
  | [] => .panicked "called Option::unwrap() on a None value"
  | first :: rest =>
    match first with
    | .flag s =>
      if s = "+" then
        match rest with
        | [] => .panicked "called Option::unwrap() on a None value"
        | second :: _ => .ok ⟨some true, second.str⟩
      else if s = "-" then
        match rest with
        | [] => .panicked "called Option::unwrap() on a None value"
        | second :: _ => .ok ⟨some false, second.str⟩
      else .panicked "internal error: entered unreachable code"
    | .option _ => .ok ⟨none, first.str⟩

/-- The child pairs a grammar-produced test node can hand to Test::parse
after the result pair: number, description and directive pairs carry their
token strings; a yaml_block pair carries the list of captured YAML line
strings its inner yaml pairs hold (the indentation stripping itself is a
grammar concern, see yamlBlockCapture).  These four rules are the only ones
the grammar yields here; any other rule would hit the unreachable! arm of
the source match. -/
inductive TestChild where
  | number (s : String)
  | description (s : String)
  | directive (key : String) (reason : Option String)
  | yaml_block (lines : List String)
  deriving DecidableEq

/-- One iteration of the for loop of Test::parse (lib.rs:300-310): each
field is overwritten by the last pair of its kind; a number that fails the
i32 parse and a directive whose own build fails are converted to None by
.ok(); yaml lines are appended. -/
def Test.applyChild (t : Test) : TestChild → Test
  | .number s => { t with number := parseI32 s }
  | .description s => { t with description := some s }
  | .directive key reason => { t with directive := exceptOk (Directive.parse key reason) }
  | .yaml_block lines => { t with yaml := t.yaml ++ lines }

/-- Embedding of the result-token match of Test::parse (lib.rs:288-295). -/
def Test.resultOfToken (s : String) : Except TapError Bool :=
  let t := toLowercase s
  if t = "ok" then .ok true
  else if t = "not ok" then .ok false
  else .error (.resultToken s)

/-- Embedding of Test::parse (lib.rs:286-318): the lower-cased result token
decides result (a bad token is a typed error propagated by ?), then the
remaining pairs are folded left to right over the initially-empty field
state. -/
def Test.parse (result_token : String) (children : List TestChild) : Except TapError Test :=
  match Test.resultOfToken result_token with
  | .error e => .error e
  | .ok result =>
    .ok (children.foldl Test.applyChild
      { result := result, number := none, description := none,
        directive := none, yaml := [] })

/-- The classified contents of a subtest node (lib.rs enum SubtestContent):
every child pair after the optional name is either a plan (built by
Plan::parse) or a statement (built by Statement::parse); build errors of
either are propagated by the collect::<Result<_>> upstream of the resolver
and never reach it. -/
inductive SubtestContent where
  | plan (p : Plan)
  | statement (s : Statement)

/-- Whether a classified subtest content is a Plan, as tested by the
matches! in the scan loop (lib.rs:508). -/
def SubtestContent.isPlan : SubtestContent → Bool
  | .plan _ => true
  | .statement _ => false

/-- Number of Plan nodes in a classified child sequence. -/
def countPlans (contents : List SubtestContent) : Nat :=
  contents.countP (fun c => c.isPlan)

/-- The last Plan node of a classified child sequence in sequence order
(textual order).  This is the spec-side definition of the documented
"last plan wins" policy of spec section 4.4 step 3, to be compared with
what the source scan loop actually stores. -/
def lastPlanOf : List SubtestContent → Option Plan
  | [] => none
  | .plan q :: rest => some ((lastPlanOf rest).getD q)
  | .statement _ :: rest => lastPlanOf rest

/-- The Statement nodes of a classified child sequence, in their original
relative order (the body extraction filter_map of lib.rs:517-523). -/
def stmtsOf (contents : List SubtestContent) : List Statement :=
  contents.filterMap (fun c =>
    match c with
    | .plan _ => none
    | .statement s => some s)

/-- Literal embedding of the plan-removal while loop of Subtest::parse
(lib.rs:504-515): i starts at 0; while i < contents.len(), if contents[i]
is a Plan it is removed from the vector and stored into p (overwriting any
earlier one); i is incremented in every iteration - also right after a
removal, so the element that slid into position i is never examined.
Returns the final p and the remaining vector. -/
def scanLoop (contents : List SubtestContent) (p : Option Plan) (i : Nat) :
    Option Plan × List SubtestContent :=
  if h : i < contents.length then
    match contents[i] with
    | .plan q => scanLoop (contents.eraseIdx i) (some q) (i + 1)
    | .statement _ => scanLoop contents p (i + 1)
  else (p, contents)
  termination_by contents.length - i
  decreasing_by
  · rw [List.length_eraseIdx_of_lt h]; omega
  · omega

/-- Structural recursion equivalent of scanLoop (proved equivalent in
scanLoop_eq_scanRec): examining the head; a Plan head is removed and
stored, and the element right after it is skipped (kept but unexamined),
mirroring the post-removal index increment of the source loop. -/
def scanRec : List SubtestContent → Option Plan → Option Plan × List SubtestContent
  | [], p => (p, [])
  | [.plan q], _ => (some q, [])
  | .plan q :: x :: rest, _ =>
    let r := scanRec rest (some q)
    (r.1, x :: r.2)
  | .statement s :: rest, p =>
    let r := scanRec rest p
    (r.1, .statement s :: r.2)

/-- Embedding of the resolver tail of Subtest::parse (lib.rs:504-525): run
the plan-removal scan over the classified contents, unwrap the stored plan
(a panic when no Plan was ever stored), and keep the statements of the
remaining vector, in order, as the body. -/
def subtestResolve (name : Option String) (contents : List SubtestContent) :
    Outcome Subtest :=
  let r := scanRec contents none
  match r.1 with
  | none => .panicked "called Option::unwrap() on a None value"
  | some plan => .ok (.mk name plan (stmtsOf r.2))

/-- The two top-level content blocks (lib.rs enum DocumentContent): block
classification is done by DocumentContent::parse from the grammar tag, and
per-statement build errors are propagated before the assembler runs. -/
inductive DocumentContent where
  | plan (p : Plan)
  | body (b : List Statement)

/-- A Document (lib.rs struct Document). -/
structure Document where
  preamble : Preamble
  plan : Plan
  body : List Statement

/-- Embedding of the assembling match of Document::parse (lib.rs:659-675):
one plan and one body in either order assemble the Document; any other
combination hits the unreachable! arm, a process abort. -/
def Document.assemble (preamble : Preamble) (content1 content2 : DocumentContent) :
    Outcome Document :=
  match content1, content2 with
  | .plan p, .body b => .ok ⟨preamble, p, b⟩
  | .body b, .plan p => .ok ⟨preamble, p, b⟩
  | .plan _, .plan _ => .panicked "internal error: entered unreachable code"
  | .body _, .body _ => .panicked "internal error: entered unreachable code"

/-- Embedding of split_contents (main.rs:263-284), the CLI variant of the
document assembler: same resolution by tag, except that duplicate blocks
abort with panic! messages (the source texts wrap the block word in single
quotation marks). -/
def split_contents (content1 content2 : DocumentContent) :
    Outcome (Plan × List Statement) :=
  match content1 with
  | .plan p =>
    match content2 with
    | .body b => .ok (p, b)
    | .plan _ => .panicked "Unexpected double body"
  | .body b =>
    match content2 with
    | .plan p => .ok (p, b)
    | .body _ => .panicked "Unexpected double plan"

/-- Drop of the first n characters of a string (the shared-indentation
strip). -/
def dropChars (s : String) (n : Nat) : String :=
  String.mk (s.data.drop n)

/-- Length of the run of leading space characters of a line. -/
def leadingSpaces (s : String) : Nat :=
  (s.data.takeWhile (fun c => c = ' ')).length

/-- Modelled from the spec: the yaml_block production of the grammar layer
(the grammar file tap14.pest is not part of src/).  Spec section 4.1: a
line consisting solely of the opening fence at some indentation N, followed
by zero or more lines at indentation at least N, each captured with the
shared indentation prefix of length N stripped, terminated by a closing
fence line at indentation N; a malformed block is a grammar failure (here:
none). -/
def yamlBlockCapture (lines : List String) : Option (List String) :=
  match lines with
  | [] => none
  | first :: rest =>
    let n := leadingSpaces first
    if dropChars first n = "---" then
      match rest.getLast? with
      | none => none
      | some lastLine =>
        if leadingSpaces lastLine = n ∧ dropChars lastLine n = "..." then
          let inner := rest.dropLast
          if inner.all (fun l => n ≤ leadingSpaces l) then
            some (inner.map (fun l => dropChars l n))
          else none
        else none
    else none

/-! Lemmas about the plan-removal scan. -/

/-- The element sitting right after a prefix. -/
theorem getElem_append_len {α : Type} (pre : List α) (y : α) (l : List α)
    (h : pre.length < (pre ++ y :: l).length) : (pre ++ y :: l)[pre.length] = y := by
  induction pre with
  | nil => rfl
  | cons a t ih => simpa using ih (by simp)

/-- Removing the element sitting right after a prefix. -/
theorem eraseIdx_append_len {α : Type} (pre : List α) (y : α) (l : List α) :
    (pre ++ y :: l).eraseIdx pre.length = pre ++ l := by
  induction pre with
  | nil => rfl
  | cons a t ih => simpa using ih

/-- The literal while-loop embedding and the structural recursion agree:
running the loop with the first i elements already behind the cursor is the
recursion on the remaining elements. -/
theorem scanLoop_eq_scanRec_aux (cur : List SubtestContent) (p : Option Plan) :
    ∀ pre : List SubtestContent,
      scanLoop (pre ++ cur) p pre.length =
        ((scanRec cur p).1, pre ++ (scanRec cur p).2) := by
  induction cur, p using scanRec.induct with
  | case1 p =>
    intro pre
    rw [scanLoop.eq_def]
    simp [scanRec]
  | case2 q p =>
    intro pre
    have hlen : pre.length < (pre ++ [SubtestContent.plan q]).length := by simp
    have h2 : scanLoop pre (some q) (pre.length + 1) = (some q, pre) := by
      rw [scanLoop.eq_def]; simp
    rw [scanLoop.eq_def, dif_pos hlen, getElem_append_len pre _ _ hlen]
    simp [eraseIdx_append_len, scanRec, h2]
  | case3 q x rest p ih =>
    intro pre
    have hlen : pre.length < (pre ++ SubtestContent.plan q :: x :: rest).length := by simp
    have hx : (pre ++ [x]) ++ rest = pre ++ x :: rest := by
      simp [List.append_assoc]
    have hlx : (pre ++ [x]).length = pre.length + 1 := by simp
    have h3 := ih (pre ++ [x])
    rw [hx, hlx] at h3
    rw [scanLoop.eq_def, dif_pos hlen, getElem_append_len pre _ _ hlen]
    simp [eraseIdx_append_len, scanRec, h3, List.append_assoc]
  | case4 s rest p ih =>
    intro pre
    have hlen : pre.length <
        (pre ++ SubtestContent.statement s :: rest).length := by simp
    have hx : (pre ++ [SubtestContent.statement s]) ++ rest =
        pre ++ SubtestContent.statement s :: rest := by
      simp [List.append_assoc]
    have hlx : (pre ++ [SubtestContent.statement s]).length = pre.length + 1 := by simp
    have h4 := ih (pre ++ [SubtestContent.statement s])
    rw [hx, hlx] at h4
    rw [scanLoop.eq_def, dif_pos hlen, getElem_append_len pre _ _ hlen]
    simp [scanRec, h4, List.append_assoc]

/-- Fidelity of the structural recursion: started at index 0 the literal
loop computes exactly scanRec. -/
theorem scanLoop_eq_scanRec (contents : List SubtestContent) (p : Option Plan) :
    scanLoop contents p 0 = scanRec contents p := by
  simpa using scanLoop_eq_scanRec_aux contents p []

/-- The scan never loses or reorders statements: the statements of the
residual vector are the statements of the input, in order. -/
theorem stmtsOf_scanRec (cur : List SubtestContent) (p : Option Plan) :
    stmtsOf (scanRec cur p).2 = stmtsOf cur := by
  induction cur, p using scanRec.induct with
  | case1 p => rfl
  | case2 q p => rfl
  | case3 q x rest p ih =>
    cases x with
    | plan r => simp [scanRec, stmtsOf] at ih ⊢; exact ih
    | statement s => simp [scanRec, stmtsOf] at ih ⊢; exact ih
  | case4 s rest p ih => simp [scanRec, stmtsOf] at ih ⊢; exact ih

/-- With no Plan node in the sequence the scan is the identity: nothing is
stored and nothing is removed. -/
theorem scanRec_of_no_plans (cur : List SubtestContent) (p : Option Plan)
    (h : countPlans cur = 0) : scanRec cur p = (p, cur) := by
  induction cur, p using scanRec.induct with
  | case1 p => rfl
  | case2 q p => simp [countPlans, SubtestContent.isPlan] at h
  | case3 q x rest p ih => simp [countPlans, SubtestContent.isPlan] at h
  | case4 s rest p ih =>
    simp [countPlans, SubtestContent.isPlan] at h ih ⊢
    simp [scanRec, ih h]

/-- Whether no Plan node immediately follows another Plan node. -/
def noAdjacentPlans : List SubtestContent → Bool
  | [] => true
  | [_] => true
  | a :: b :: rest => !(a.isPlan && b.isPlan) && noAdjacentPlans (b :: rest)

/-- A tail of an adjacency-free sequence is adjacency-free. -/
theorem noAdjacentPlans_tail (a : SubtestContent) (l : List SubtestContent)
    (h : noAdjacentPlans (a :: l) = true) : noAdjacentPlans l = true := by
  match l with
  | [] => rfl
  | b :: rest => simp [noAdjacentPlans] at h; exact h.2

/-- A sequence with at most one Plan node has no adjacent Plan nodes. -/
theorem noAdjacentPlans_of_le_one (cur : List SubtestContent)
    (h : countPlans cur ≤ 1) : noAdjacentPlans cur = true := by
  induction cur with
  | nil => rfl
  | cons a l ih =>
    match l with
    | [] => rfl
    | b :: rest =>
      simp only [noAdjacentPlans, Bool.and_eq_true, Bool.not_eq_true']
      constructor
      · by_contra hab
        simp only [Bool.not_eq_false, Bool.and_eq_true] at hab
        simp [countPlans, List.countP_cons, hab.1, hab.2] at h
      · apply ih
        simp only [countPlans, List.countP_cons] at h ⊢
        omega

/-- On an adjacency-free sequence the scan stores the last Plan node in
sequence order (or keeps its accumulator when there is none): the skip
after each removal only ever skips a statement. -/
theorem scanRec_fst_of_noAdjacent (cur : List SubtestContent) (p : Option Plan)
    (h : noAdjacentPlans cur = true) :
    (scanRec cur p).1 = ((lastPlanOf cur).map some).getD p := by
  induction cur, p using scanRec.induct with
  | case1 p => rfl
  | case2 q p => simp [scanRec, lastPlanOf]
  | case3 q x rest p ih =>
    cases x with
    | plan r =>
      exfalso
      simp [noAdjacentPlans, SubtestContent.isPlan] at h
    | statement s =>
      have hrest : noAdjacentPlans rest = true :=
        noAdjacentPlans_tail _ _ (noAdjacentPlans_tail _ _ h)
      simp only [scanRec, lastPlanOf, ih hrest]
      cases hl : lastPlanOf rest <;> simp [hl]
  | case4 s rest p ih =>
    have hrest : noAdjacentPlans rest = true := noAdjacentPlans_tail _ _ h
    simp only [scanRec, lastPlanOf, ih hrest]

/-- Helper shared by the Subtest-resolution claims: on an adjacency-free
classified child sequence holding at least one Plan, the resolver succeeds
with the last Plan in sequence order and the statements, in their original
relative order, as the body. -/
theorem subtestResolve_of_noAdjacent (name : Option String)
    (contents : List SubtestContent) (q : Plan)
    (hadj : noAdjacentPlans contents = true)
    (hlast : lastPlanOf contents = some q) :
    subtestResolve name contents = .ok (Subtest.mk name q (stmtsOf contents)) := by
  have hfst : (scanRec contents none).1 = some q := by
    rw [scanRec_fst_of_noAdjacent contents none hadj, hlast]
    rfl
  simp [subtestResolve, hfst, stmtsOf_scanRec]

/-! Claims. -/

/-- Claim C1 (code_bug evidence): on a Subtest child sequence holding zero
Plan nodes the resolver does NOT return the typed "missing plan" error the
spec demands - the scan leaves p = None and lib.rs:516 / main.rs:229
unwrap it, which is an unconditional process abort. -/
theorem C1_missing_plan_aborts (name : Option String)
    (contents : List SubtestContent) (h : countPlans contents = 0) :
    subtestResolve name contents =
      .panicked "called Option::unwrap() on a None value" := by
  simp [subtestResolve, scanRec_of_no_plans contents none h]

/-- Witness for C1: a subtest whose single classified child is a statement
(no Plan anywhere) makes the resolver panic. -/
theorem C1_missing_plan_aborts_witness :
    countPlans [SubtestContent.statement (Statement.anything "ok 1")] = 0 ∧
    subtestResolve none [SubtestContent.statement (Statement.anything "ok 1")] =
      .panicked "called Option::unwrap() on a None value" :=
  ⟨rfl, C1_missing_plan_aborts none _ rfl⟩

/-- Claim C2, counterexample: for the classified child sequence
[Plan 1..1, Plan 2..2] the last Plan in sequence order is 2..2, but the
resolver stores 1..1 - the while loop removes contents[0] and then
increments i, so the second Plan (now at index 0) is never examined and
the first Plan survives as the stored one.  Hence "the last Plan node in
sequence order becomes the plan, regardless of where the Plan nodes sit"
is false as stated. -/
theorem C2_last_plan_counterexample :
    lastPlanOf [SubtestContent.plan (Plan.mk 1 1 none),
        SubtestContent.plan (Plan.mk 2 2 none)] = some (Plan.mk 2 2 none) ∧
    subtestResolve none [SubtestContent.plan (Plan.mk 1 1 none),
        SubtestContent.plan (Plan.mk 2 2 none)] =
      .ok (Subtest.mk none (Plan.mk 1 1 none) []) ∧
    Plan.mk 1 1 none ≠ Plan.mk 2 2 none :=
  ⟨rfl, rfl, by decide⟩

/-- Claim C2 as amended: with two or more Plan nodes the stored plan is
the last Plan node in sequence order PROVIDED no Plan node immediately
follows another Plan node; the removal scan skips the element right after
each removed Plan, so only adjacent Plans can escape examination (as in
the counterexample, where the first of two adjacent Plans is kept). -/
theorem C2_last_plan_wins_when_not_adjacent (name : Option String)
    (contents : List SubtestContent) (q : Plan)
    (_hcount : 2 ≤ countPlans contents)
    (hadj : noAdjacentPlans contents = true)
    (hlast : lastPlanOf contents = some q) :
    subtestResolve name contents = .ok (Subtest.mk name q (stmtsOf contents)) :=
  subtestResolve_of_noAdjacent name contents q hadj hlast

/-- Witness for the amended C2: Plan 1..1, a statement, Plan 2..2 - the
separated second Plan wins and the statement is the whole body. -/
theorem C2_last_plan_wins_when_not_adjacent_witness :
    2 ≤ countPlans [SubtestContent.plan (Plan.mk 1 1 none),
        SubtestContent.statement (Statement.anything "a"),
        SubtestContent.plan (Plan.mk 2 2 none)] ∧
    noAdjacentPlans [SubtestContent.plan (Plan.mk 1 1 none),
        SubtestContent.statement (Statement.anything "a"),
        SubtestContent.plan (Plan.mk 2 2 none)] = true ∧
    subtestResolve none [SubtestContent.plan (Plan.mk 1 1 none),
        SubtestContent.statement (Statement.anything "a"),
        SubtestContent.plan (Plan.mk 2 2 none)] =
      .ok (Subtest.mk none (Plan.mk 2 2 none) [Statement.anything "a"]) :=
  ⟨by decide, rfl,
    C2_last_plan_wins_when_not_adjacent none _ (Plan.mk 2 2 none)
      (by decide) rfl rfl⟩

/-- Claim C3: with exactly one Plan node among the classified children the
resolver output is fully determined by the name, that Plan and the
statement subsequence: the plan field is the unique Plan wherever it sits
(before, after, or interleaved among the statements), the body is the
statement nodes in their original relative order, and - body being built
from statements only - no Plan node remains in it. -/
theorem C3_single_plan_resolution (name : Option String)
    (contents : List SubtestContent) (q : Plan)
    (hcount : countPlans contents = 1)
    (hlast : lastPlanOf contents = some q) :
    subtestResolve name contents = .ok (Subtest.mk name q (stmtsOf contents)) :=
  subtestResolve_of_noAdjacent name contents q
    (noAdjacentPlans_of_le_one contents (by omega)) hlast

/-- Witness for C3: a Plan interleaved between two statements resolves to
that Plan with the two statements, in order, as body. -/
theorem C3_single_plan_resolution_witness :
    countPlans [SubtestContent.statement (Statement.anything "a"),
        SubtestContent.plan (Plan.mk 1 2 none),
        SubtestContent.statement (Statement.anything "b")] = 1 ∧
    lastPlanOf [SubtestContent.statement (Statement.anything "a"),
        SubtestContent.plan (Plan.mk 1 2 none),
        SubtestContent.statement (Statement.anything "b")] =
      some (Plan.mk 1 2 none) ∧
    subtestResolve (some "t") [SubtestContent.statement (Statement.anything "a"),
        SubtestContent.plan (Plan.mk 1 2 none),
        SubtestContent.statement (Statement.anything "b")] =
      .ok (Subtest.mk (some "t") (Plan.mk 1 2 none)
        [Statement.anything "a", Statement.anything "b"]) :=
  ⟨rfl, rfl,
    C3_single_plan_resolution (some "t") _ (Plan.mk 1 2 none) rfl rfl⟩

/-- Claim C4 (code_bug evidence): two plan blocks or two body blocks do
NOT produce the typed "unexpected duplicate block" error the spec demands:
the library assembler falls into the unreachable! arm (lib.rs:667) and the
CLI assembler into panic! (main.rs:272, main.rs:279), both unconditional
process aborts, never a typed error and never success. -/
theorem C4_duplicate_blocks_abort (pre : Preamble) (p q : Plan)
    (b b' : List Statement) :
    Document.assemble pre (.plan p) (.plan q) =
      .panicked "internal error: entered unreachable code" ∧
    Document.assemble pre (.body b) (.body b') =
      .panicked "internal error: entered unreachable code" ∧
    split_contents (.plan p) (.plan q) = .panicked "Unexpected double body" ∧
    split_contents (.body b) (.body b') = .panicked "Unexpected double plan" :=
  ⟨rfl, rfl, rfl, rfl⟩

/-- Claim C5: with one plan block and one body block the assembled
Document is the same whichever of the two comes first, in the library
assembler and in the CLI variant alike. -/
theorem C5_document_order_independent (pre : Preamble) (p : Plan)
    (b : List Statement) :
    Document.assemble pre (.plan p) (.body b) = .ok ⟨pre, p, b⟩ ∧
    Document.assemble pre (.body b) (.plan p) = .ok ⟨pre, p, b⟩ ∧
    split_contents (.plan p) (.body b) = split_contents (.body b) (.plan p) :=
  ⟨rfl, rfl, rfl⟩

/-- Claim C6, counterexample: a Test child whose own building fails does
NOT make the Test build propagate a typed error.  The number token
99999999999 fails the i32 parse and a directive with key foo fails its
build, yet Test::parse succeeds in both cases with the field silently set
to None - the .ok() calls of lib.rs:302 and lib.rs:304 swallow the errors. -/
theorem C6_child_error_counterexample :
    parseI32 "99999999999" = none ∧
    Test.parse "ok" [TestChild.number "99999999999"] =
      .ok (Test.mk true none none none []) ∧
    Directive.parse "foo" none = .error (.directiveKey "foo") ∧
    Test.parse "ok" [TestChild.directive "foo" none] =
      .ok (Test.mk true none none none []) :=
  ⟨rfl, rfl, rfl, rfl⟩

/-- Claim C6 as amended: besides the last-Plan-wins tie-break, the Test
builder also silently swallows the failures of its number and directive
children (converting them to None via .ok()): whenever the result token is
valid, Test::parse succeeds no matter what its children are, so a child
build failure is never propagated. -/
theorem C6_test_never_propagates_child_errors (s : String)
    (children : List TestChild)
    (h : toLowercase s = "ok" ∨ toLowercase s = "not ok") :
    ∃ t : Test, Test.parse s children = .ok t := by
  unfold Test.parse Test.resultOfToken
  rcases h with h | h <;> simp [h]

/-- Witness for the amended C6: a Test with a failing directive child
still builds successfully. -/
theorem C6_test_never_propagates_child_errors_witness :
    (toLowercase "ok" = "ok" ∨ toLowercase "ok" = "not ok") ∧
    (∃ t : Test, Test.parse "ok" [TestChild.directive "foo" none] = .ok t) :=
  ⟨Or.inl rfl,
    C6_test_never_propagates_child_errors "ok" [TestChild.directive "foo" none]
      (Or.inl rfl)⟩

/-- Claim C7: directive key classification is case-insensitive - every
key token lower-casing to skip yields Key.skip and every token
lower-casing to todo yields Key.todo (in particular SKIP, skip, Skip and
the todo casings), and any other key token yields the typed semantic error
carrying the (lower-cased) offending token. -/
theorem C7_directive_key_classification (key : String) (reason : Option String) :
    (toLowercase key = "skip" →
      Directive.parse key reason = .ok ⟨.skip, reason⟩) ∧
    (toLowercase key = "todo" →
      Directive.parse key reason = .ok ⟨.todo, reason⟩) ∧
    (toLowercase key ≠ "skip" → toLowercase key ≠ "todo" →
      Directive.parse key reason = .error (.directiveKey (toLowercase key))) ∧
    Directive.parse "SKIP" reason = .ok ⟨.skip, reason⟩ ∧
    Directive.parse "skip" reason = .ok ⟨.skip, reason⟩ ∧
    Directive.parse "Skip" reason = .ok ⟨.skip, reason⟩ ∧
    Directive.parse "TODO" reason = .ok ⟨.todo, reason⟩ ∧
    Directive.parse "tOdO" reason = .ok ⟨.todo, reason⟩ := by
  refine ⟨fun h => ?_, fun h => ?_, fun h1 h2 => ?_, rfl, rfl, rfl, rfl, rfl⟩
  · simp [Directive.parse, h]
  · simp [Directive.parse, h]
  · simp [Directive.parse, h1, h2]

/-- Witness for C7: the upper-cased key SKIP classifies as Key.skip, and
the unrecognized key fOo produces the typed error carrying foo. -/
theorem C7_directive_key_classification_witness :
    toLowercase "SKIP" = "skip" ∧
    Directive.parse "SKIP" none = .ok ⟨.skip, none⟩ ∧
    (toLowercase "fOo" ≠ "skip" ∧ toLowercase "fOo" ≠ "todo") ∧
    Directive.parse "fOo" none = .error (.directiveKey "foo") :=
  ⟨rfl, (C7_directive_key_classification "SKIP" none).1 rfl,
    ⟨by decide, by decide⟩,
    (C7_directive_key_classification "fOo" none).2.2.1 (by decide) (by decide)⟩

/-- Claim C8: a leading + flag pair yields flag = some true, a leading -
yields some false, no flag pair yields none, with the option identifier
bound from the following (or only) pair; in particular the children the
grammar produces for "pragma +strict" yield Pragma (some true) "strict". -/
theorem C8_pragma_flag (o : String) (rest : List PragmaChild) :
    Pragma.parse (PragmaChild.flag "+" :: PragmaChild.option o :: rest) =
      .ok ⟨some true, o⟩ ∧
    Pragma.parse (PragmaChild.flag "-" :: PragmaChild.option o :: rest) =
      .ok ⟨some false, o⟩ ∧
    Pragma.parse [PragmaChild.option o] = .ok ⟨none, o⟩ ∧
    Pragma.parse [PragmaChild.flag "+", PragmaChild.option "strict"] =
      .ok ⟨some true, "strict"⟩ :=
  ⟨rfl, rfl, rfl, rfl⟩

/-- Left fold of Test child application over yaml blocks only: the blocks
concatenate, in encounter order, onto the yaml field; no other field moves. -/
theorem foldl_yaml_blocks (bs : List (List String)) (t : Test) :
    (bs.map TestChild.yaml_block).foldl Test.applyChild t =
      { t with yaml := t.yaml ++ bs.flatten } := by
  induction bs generalizing t with
  | nil => simp
  | cons b rest ih => simp [Test.applyChild, ih, List.append_assoc]

/-- Claim C9: a Test with two or more attached YAML blocks gets as yaml
field the concatenation of the blocks' captured lines in source encounter
order; and (grammar side, modelled from the spec) the capture of the block
"  ---" / "  a: 1" / "  ..." strips the shared 2-space indentation and
yields exactly the inner line "a: 1". -/
theorem C9_yaml_concatenation (b1 b2 : List String) (bs : List (List String)) :
    Test.parse "ok" (TestChild.yaml_block b1 :: TestChild.yaml_block b2 ::
        bs.map TestChild.yaml_block) =
      .ok (Test.mk true none none none (b1 ++ b2 ++ bs.flatten)) ∧
    yamlBlockCapture ["  ---", "  a: 1", "  ..."] = some ["a: 1"] := by
  constructor
  · have h0 : Test.resultOfToken "ok" = .ok true := rfl
    unfold Test.parse
    rw [h0]
    simp only [List.foldl_cons, Test.applyChild]
    rw [foldl_yaml_blocks]
    simp [List.append_assoc]
  · rfl

/-- On a nonempty all-digit run parseDigits returns its numeric value. -/
theorem parseDigits_eq_digitsVal (cs : List Char) (hne : cs ≠ [])
    (hdig : cs.all Char.isDigit = true) :
    parseDigits cs = some (digitsVal cs) := by
  cases cs with
  | nil => exact absurd rfl hne
  | cons c rest => simp [parseDigits, digitsVal, hdig]

/-- Every grammar-shaped number token (nonempty digit run, no sign) whose
value exceeds the i32 maximum fails str::parse::<i32>. -/
theorem parseI32_overflow (s : String) (hne : s.data ≠ [])
    (hdig : s.data.all Char.isDigit = true)
    (hbig : 2 ^ 31 ≤ digitsVal s.data) : parseI32 s = none := by
  unfold parseI32
  cases hcs : s.data with
  | nil => exact absurd hcs hne
  | cons c rest =>
    rw [hcs] at hdig hbig
    have hc : c.isDigit = true := by
      simp [List.all_cons] at hdig
      exact hdig.1
    have hplus : c ≠ '+' := by
      intro h
      rw [h] at hc
      exact absurd hc (by decide)
    have hminus : c ≠ '-' := by
      intro h
      rw [h] at hc
      exact absurd hc (by decide)
    split
    rename_i sign digits heq
    split at heq
    · rename_i r' heq'
      injection heq' with h1 _
      exact absurd h1 hplus
    · rename_i r' heq'
      injection heq' with h1 _
      exact absurd h1 hminus
    · injection heq with hs hr
      subst hs
      subst hr
      rw [parseDigits_eq_digitsVal _ (by simp) hdig]
      have hv : ¬(-(2 : Int) ^ 31 ≤ (digitsVal (c :: rest) : Int) ∧
          (digitsVal (c :: rest) : Int) ≤ 2 ^ 31 - 1) := by
        rintro ⟨-, h2⟩
        have hcast : ((2 : Int) ^ 31) ≤ (digitsVal (c :: rest) : Int) := by
          exact_mod_cast hbig
        exact absurd (le_trans hcast h2) (by norm_num)
      have hbig' : 2147483648 ≤ digitsVal (c :: rest) := by
        norm_num at hbig
        exact hbig
      simp [hv]
      intro _
      omega

/-- Claim C10: for every grammar-shaped number token (a nonempty digit
run) whose value does not fit in an i32, str::parse fails and the .ok()
of lib.rs:302 turns the failure into None; for every valid result token
and whatever further children the grammar attaches, Test::parse succeeds,
and its output is the very output produced when the number token is absent
altogether, so an overflowing number is indistinguishable from a missing
one at the public interface (in particular, on the lone overflowing number
child the built Test carries number = none). -/
theorem C10_overflow_number_is_none (rt s : String) (rest : List TestChild)
    (hres : toLowercase rt = "ok" ∨ toLowercase rt = "not ok")
    (hne : s.data ≠ [])
    (hdig : s.data.all Char.isDigit = true)
    (hbig : 2 ^ 31 ≤ digitsVal s.data) :
    parseI32 s = none ∧
    Test.parse rt (TestChild.number s :: rest) = Test.parse rt rest ∧
    (∃ t : Test, Test.parse rt (TestChild.number s :: rest) = .ok t) ∧
    (∃ t : Test, Test.parse rt [TestChild.number s] = .ok t ∧
      t.number = none) := by
  have hnone : parseI32 s = none := parseI32_overflow s hne hdig hbig
  refine ⟨hnone, ?_, ?_, ?_⟩
  · unfold Test.parse
    cases Test.resultOfToken rt with
    | error e => rfl
    | ok b => simp [Test.applyChild, hnone]
  · unfold Test.parse Test.resultOfToken
    rcases hres with h | h <;> simp [h]
  · unfold Test.parse Test.resultOfToken
    rcases hres with h | h <;> simp [h, Test.applyChild, hnone]

/-- Witness for C10: the token 99999999999 of the claim is a digit run
exceeding the i32 maximum; instantiating the universal theorem on it, on
the result token ok and on a description child shows the number silently
vanishing. -/
theorem C10_overflow_number_is_none_witness :
    ((toLowercase "ok" = "ok" ∨ toLowercase "ok" = "not ok") ∧
      "99999999999".data ≠ [] ∧
      "99999999999".data.all Char.isDigit = true ∧
      2 ^ 31 ≤ digitsVal "99999999999".data) ∧
    (parseI32 "99999999999" = none ∧
      Test.parse "ok" (TestChild.number "99999999999" ::
          [TestChild.description "x"]) =
        Test.parse "ok" [TestChild.description "x"] ∧
      (∃ t : Test, Test.parse "ok" (TestChild.number "99999999999" ::
          [TestChild.description "x"]) = .ok t) ∧
      (∃ t : Test, Test.parse "ok" [TestChild.number "99999999999"] = .ok t ∧
        t.number = none)) :=
  ⟨⟨Or.inl rfl, by decide, rfl, by decide⟩,
    C10_overflow_number_is_none "ok" "99999999999" [TestChild.description "x"]
      (Or.inl rfl) (by decide) rfl (by decide)⟩

end Tap
